import Mathlib

/-!
Verification of the circonus-agent reverse-tunnel and check-manager core.

The development shallowly embeds:
* the broker frame wire format (6-byte big-endian header plus payload),
* the connect-loop retry/refresh counter,
* `check.New`, `GetReverseConfig` and `EnableNewMetrics` from
  `internal/check/main.go`, with the API-facing internals (`setCheck`,
  `loadState`, `saveState`, `getFullCheckMetrics`, `updateCheckBundleMetrics`)
  supplied as explicit environment records, and
* the reverse tunnel surface (`New`, `Start`, `Stop`).

Bytes are modelled as `Nat` values below 256; times as `Nat` ticks; the
process-global viper configuration as an explicit `Config` record threaded
through the functions that read or set it.
-/

/-! ### Frame wire format -/

/-- A decoded broker frame: 15-bit channel id, command-vs-data flag, payload. -/
structure Frame where
  channelId : Nat
  command : Bool
  payload : List Nat
deriving DecidableEq, Repr

/-- Modelled from the spec: the frame encoder (`buildFrame` lives in the reverse
package's test file, whose body is not under src). Offset 0..1 holds the
big-endian u16 `channel_id_and_flags` (bit 15 = command flag, bits 0..14 =
channel id), offsets 2..5 the big-endian u32 payload length, then the payload
bytes. -/
def encodeFrame (f : Frame) : List Nat :=
  let cf := (if f.command then 32768 else 0) + f.channelId
  let len := f.payload.length
  cf / 256 :: cf % 256 ::
    len / 16777216 % 256 :: len / 65536 % 256 :: len / 256 % 256 :: len % 256 ::
    f.payload

/-- Modelled from the spec: the frame decoder of the reverse tunnel (not under
src). Reads exactly 6 header bytes, splits the u16 into command flag and
channel id, reads `payload_length` payload bytes; a short read or a length
above 65536 is a recoverable error (`none`). -/
def decodeFrame (bytes : List Nat) : Option Frame :=
  match bytes with
  | b0 :: b1 :: b2 :: b3 :: b4 :: b5 :: rest =>
    let cf := b0 * 256 + b1
    let len := ((b2 * 256 + b3) * 256 + b4) * 256 + b5
    if rest.length = len ∧ len ≤ 65536 then
      some { channelId := cf % 32768, command := decide (32768 ≤ cf), payload := rest }
    else none
  | _ => none

/-! ### Connect loop retry counter -/

/-- Maximum consecutive dial failures before a check-config refresh. -/
def maxConnRetry : Nat := 10

/-- Connect-loop bookkeeping: the consecutive-failure counter and how many
times `RefreshCheckConfig` has been invoked. -/
structure ConnState where
  attempt : Nat
  refreshCount : Nat
deriving DecidableEq, Repr

/-- Modelled from the spec: one iteration of the connect loop (reverse
package's main source is not under src). A successful dial resets the
counter; a failure increments it, and on reaching `maxConnRetry` the loop
invokes `RefreshCheckConfig` once and resets the counter. -/
def connStep (s : ConnState) (dialOk : Bool) : ConnState :=
  if dialOk then
    { s with attempt := 0 }
  else
    let a := s.attempt + 1
    if a = maxConnRetry then
      { attempt := 0, refreshCount := s.refreshCount + 1 }
    else
      { s with attempt := a }

/-- Run the connect loop over a list of dial outcomes. -/
def connRun (s : ConnState) (outcomes : List Bool) : ConnState :=
  outcomes.foldl connStep s

/-! ### Theorems: frame round-trip (C1) and connect loop (C2) -/

theorem connRun_replicate_false (k a r : Nat) (h : a + k < maxConnRetry) :
    connRun { attempt := a, refreshCount := r } (List.replicate k false) =
      { attempt := a + k, refreshCount := r } := by
  induction k generalizing a with
  | zero => rfl
  | succ n ih =>
    rw [List.replicate_succ]
    have hstep : connStep { attempt := a, refreshCount := r } false =
        { attempt := a + 1, refreshCount := r } := by
      simp only [connStep, if_neg (Bool.false_ne_true)]
      have : ¬ (a + 1 = maxConnRetry) := by
        simp only [maxConnRetry] at h ⊢
        omega
      simp [this]
    show connRun (connStep { attempt := a, refreshCount := r } false)
        (List.replicate n false) = _
    rw [hstep, ih (a + 1) (by omega)]
    congr 1
    omega

/-- C2: starting from a zero attempt counter, a run of exactly `maxConnRetry`
consecutive dial failures invokes `RefreshCheckConfig` exactly once and resets
the attempt counter to zero, while any shorter run of failures invokes no
refresh at all. -/
theorem connect_loop_refresh_at_max (r : Nat) :
    connRun { attempt := 0, refreshCount := r } (List.replicate maxConnRetry false) =
      { attempt := 0, refreshCount := r + 1 } ∧
    ∀ k, k < maxConnRetry →
      connRun { attempt := 0, refreshCount := r } (List.replicate k false) =
        { attempt := k, refreshCount := r } := by
  constructor
  · rfl
  · intro k hk
    have := connRun_replicate_false k 0 r (by omega)
    simpa using this

theorem connect_loop_refresh_at_max_witness :
    connRun { attempt := 0, refreshCount := 5 } (List.replicate maxConnRetry false) =
      { attempt := 0, refreshCount := 6 } ∧
    connRun { attempt := 0, refreshCount := 5 } (List.replicate 3 false) =
      { attempt := 3, refreshCount := 5 } :=
  ⟨(connect_loop_refresh_at_max 5).1, (connect_loop_refresh_at_max 5).2 3 (by decide)⟩

/-- C1: decoding a valid frame (15-bit channel id in the flag word, declared
payload length matching the payload and at most 65536) and re-encoding it
reproduces the original bytes. -/
theorem frame_decode_encode_roundtrip (bytes : List Nat) (f : Frame)
    (hb : ∀ b ∈ bytes, b < 256)
    (hd : decodeFrame bytes = some f) :
    encodeFrame f = bytes := by
  match bytes, hb, hd with
  | b0 :: b1 :: b2 :: b3 :: b4 :: b5 :: rest, hb, hd =>
    have h0 : b0 < 256 := hb b0 (by simp)
    have h1 : b1 < 256 := hb b1 (by simp)
    have h2 : b2 < 256 := hb b2 (by simp)
    have h3 : b3 < 256 := hb b3 (by simp)
    have h4 : b4 < 256 := hb b4 (by simp)
    have h5 : b5 < 256 := hb b5 (by simp)
    simp only [decodeFrame] at hd
    split at hd
    case isTrue hlen =>
      obtain ⟨hrl, hle⟩ := hlen
      injection hd with hf
      subst hf
      simp only [encodeFrame, hrl]
      have hcf : (if decide (32768 ≤ b0 * 256 + b1) = true then 32768 else 0) +
          (b0 * 256 + b1) % 32768 = b0 * 256 + b1 := by
        by_cases hc : 32768 ≤ b0 * 256 + b1
        · rw [decide_eq_true hc]
          simp only [if_pos rfl, if_true]
          omega
        · rw [decide_eq_false hc]
          simp only [Bool.false_eq_true, if_false]
          omega
      refine List.cons_eq_cons.mpr ⟨?_, ?_⟩
      · rw [hcf]; omega
      refine List.cons_eq_cons.mpr ⟨?_, ?_⟩
      · rw [hcf]; omega
      refine List.cons_eq_cons.mpr ⟨?_, ?_⟩
      · omega
      refine List.cons_eq_cons.mpr ⟨?_, ?_⟩
      · omega
      refine List.cons_eq_cons.mpr ⟨?_, ?_⟩
      · omega
      refine List.cons_eq_cons.mpr ⟨?_, rfl⟩
      omega
    case isFalse =>
      exact absurd hd (by simp)

theorem frame_decode_encode_roundtrip_witness :
    encodeFrame { channelId := 1, command := true, payload := [10, 20, 30] } =
      [128, 1, 0, 0, 0, 3, 10, 20, 30] :=
  frame_decode_encode_roundtrip [128, 1, 0, 0, 0, 3, 10, 20, 30]
    { channelId := 1, command := true, payload := [10, 20, 30] }
    (by decide) (by decide)

/-! ### Check manager (internal/check/main.go) -/

/-- The reverse configuration tuple computed by `setCheck`. -/
structure ReverseConfig where
  brokerAddr : String
  cn : String
deriving DecidableEq, Repr

/-- The slice of a resolved check bundle the embedded code consumes: its CID
and the reverse configuration derived from it. -/
structure Bundle where
  cid : String
  revConfig : Option ReverseConfig
deriving DecidableEq, Repr

/-- The process-global viper configuration keys read (and written) by the
embedded functions. -/
structure Config where
  reverse : Bool
  checkCreate : Bool
  enableNewMetricsFlag : Bool
  checkBundleID : String
  apiTokenKey : String
  apiTokenApp : String
  apiURL : String
  metricRefreshTTL : String
deriving DecidableEq, Repr

/-- The `Check` struct of internal/check/main.go (the fields the embedded
operations touch). `metricStates` is the Go map from metric name to status,
as an association list. -/
structure Check where
  manage : Bool
  metricStates : List (String × String)
  updateMetricStates : Bool
  refreshTTL : Nat
  lastRefresh : Nat
  revConfig : Option ReverseConfig
  bundle : Option Bundle
deriving DecidableEq, Repr

/-- A locally observed metric as seen by `EnableNewMetrics`: the cgm metric
type tag ("n", "s", ...). -/
structure Metric where
  mtype : String
deriving DecidableEq, Repr

/-- An api.CheckBundleMetric record submitted to the check bundle. -/
structure CheckBundleMetric where
  name : String
  status : String
  mtype : String
deriving DecidableEq, Repr

/-- Environment record supplying the results of `New`'s API-facing internals
(`setCheck` resolves a bundle; `verifyStatePath`, `loadState` and the TTL
parse feed the managed branch), none of which are under src. -/
structure NewEnv where
  setCheckResult : Except String Bundle
  statePathOk : Bool
  loadResult : Except String (List (String × String))
  ttlResult : Except String Nat
deriving Repr

/-- Modelled from the spec: the external cgm library's `api.New` (not part of
this repository); per the reverse tests it fails with
"Initializing cgm API: API Token is required" when no token key is
configured. -/
def apiNew (tokenKey : String) : Except String Unit :=
  if tokenKey = "" then Except.error "Initializing cgm API: API Token is required"
  else Except.ok ()

/-- The `needCheck` decision of `check.New`: a check is required when reverse
is enabled, managed metrics are enabled, or create mode is on with no
configured bundle id. -/
def needCheck (cfg : Config) : Bool :=
  cfg.reverse || cfg.enableNewMetricsFlag || (cfg.checkCreate && cfg.checkBundleID == "")

/-- `check.New`. When no check is needed it returns the NOP object untouched.
Otherwise it builds the API client, runs `setCheck` (supplied through `env`),
writes the resolved bundle CID back into the global configuration, and runs
the managed-metrics branch (state path check, state load with errors ignored,
TTL parse). Returns the constructed check together with the possibly updated
global configuration. -/
def checkNew (cfg : Config) (env : NewEnv) : Except String (Check × Config) :=
  let c0 : Check :=
    { manage := false, metricStates := [], updateMetricStates := false,
      refreshTTL := 0, lastRefresh := 0, revConfig := none, bundle := none }
  if needCheck cfg = false then Except.ok (c0, cfg)
  else
    match apiNew cfg.apiTokenKey with
    | Except.error e => Except.error ("creating circonus api client: " ++ e)
    | Except.ok _ =>
      match env.setCheckResult with
      | Except.error e => Except.error ("unable to configure check: " ++ e)
      | Except.ok b =>
        let cfg1 := { cfg with checkBundleID := b.cid }
        let c1 := { c0 with bundle := some b, revConfig := b.revConfig }
        if cfg.enableNewMetricsFlag then
          let managedLoad : Bool × Check :=
            if env.statePathOk = false then (false, c1)
            else
              match env.loadResult with
              | Except.error _ => (true, c1)
              | Except.ok ms => (true, { c1 with metricStates := ms })
          if managedLoad.1 then
            match env.ttlResult with
            | Except.error e =>
              Except.error ("parsing check metric refresh TTL: " ++ e)
            | Except.ok ttl =>
              Except.ok ({ managedLoad.2 with refreshTTL := ttl, manage := true }, cfg1)
          else Except.ok (managedLoad.2, cfg1)
        else Except.ok (c1, cfg1)

/-- `Check.GetReverseConfig`: returns the cached reverse configuration, or the
error "invalid reverse configuration" when none has been computed. -/
def getReverseConfig (c : Check) : Except String ReverseConfig :=
  match c.revConfig with
  | none => Except.error "invalid reverse configuration"
  | some rc => Except.ok rc

/-- Go map assignment `states[name] = status` on the association list. -/
def insertState (st : List (String × String)) (name status : String) :
    List (String × String) :=
  (name, status) :: st.filter (fun p => p.1 != name)

/-- The metric-type inference of `EnableNewMetrics`: "n" maps to histogram,
"s" to text, anything else to numeric. -/
def metricTypeFor (t : String) : String :=
  if t = "n" then "histogram" else if t = "s" then "text" else "numeric"

/-- The new-metric scan of `EnableNewMetrics`: every locally observed metric
whose name is not in the stored metric states becomes an `active` submission
with the inferred type. -/
def scanNewMetrics (states : List (String × String)) (m : List (String × Metric)) :
    List (String × CheckBundleMetric) :=
  m.filterMap fun p =>
    if (states.lookup p.1).isSome then none
    else some (p.1, { name := p.1, status := "active", mtype := metricTypeFor p.2.mtype })

/-- Environment record for one `EnableNewMetrics` call: the current time, the
result of `getFullCheckMetrics`, whether `updateCheckBundleMetrics` succeeds,
and whether `saveState` succeeds (the code ignores the latter). -/
structure EnableEnv where
  now : Nat
  fullMetrics : Except String (List CheckBundleMetric)
  updateOk : Bool
  saveOk : Bool
deriving Repr

/-- Observable outcome of one `EnableNewMetrics` call: the updated check, the
returned error, the metrics submitted to `updateCheckBundleMetrics`, the
number of API calls made, and whether the state file was written. -/
structure EnableResult where
  check : Check
  error : Option String
  submitted : List (String × CheckBundleMetric)
  apiCalls : Nat
  stateSaved : Bool
deriving Repr

/-- The metric-state refresh block of `EnableNewMetrics`: when an update is
pending, fetch the full check metrics (one API call), merge them into the
stored states, stamp the refresh time and write the state file (result
ignored). -/
def refreshPhase (c : Check) (env : EnableEnv) : Except String (Check × Nat × Bool) :=
  if c.updateMetricStates then
    match env.fullMetrics with
    | Except.error e => Except.error ("updating metric states: " ++ e)
    | Except.ok metrics =>
      Except.ok
        ({ c with
            metricStates :=
              metrics.foldl (fun st mt => insertState st mt.name mt.status) c.metricStates,
            lastRefresh := env.now },
          1, env.saveOk)
  else Except.ok (c, 0, false)

/-- `Check.EnableNewMetrics`. Returns immediately when management is off;
arms a state load on the first call with no stored states; refreshes states
when pending or the TTL has expired; scans for unknown metrics and submits
them; an `updateCheckBundleMetrics` failure is logged, not returned. -/
def enableNewMetrics (c : Check) (m : List (String × Metric)) (env : EnableEnv) :
    EnableResult :=
  if c.manage = false then
    { check := c, error := none, submitted := [], apiCalls := 0, stateSaved := false }
  else if c.updateMetricStates = false ∧ c.metricStates = [] then
    { check := { c with updateMetricStates := true }, error := none, submitted := [],
      apiCalls := 0, stateSaved := false }
  else
    let c1 :=
      if env.now - c.lastRefresh > c.refreshTTL then
        { c with updateMetricStates := true }
      else c
    match refreshPhase c1 env with
    | Except.error e =>
      { check := c1, error := some e, submitted := [], apiCalls := 1, stateSaved := false }
    | Except.ok (c2, calls, saved) =>
      let newM := scanNewMetrics c2.metricStates m
      if 0 < newM.length then
        if env.updateOk then
          { check := { c2 with updateMetricStates := true }, error := none,
            submitted := newM, apiCalls := calls + 1, stateSaved := saved }
        else
          { check := c2, error := none, submitted := newM, apiCalls := calls + 1,
            stateSaved := saved }
      else
        { check := c2, error := none, submitted := [], apiCalls := calls,
          stateSaved := saved }

/-! ### Membership in the new-metric scan -/

theorem mem_scanNewMetrics (states : List (String × String)) (m : List (String × Metric))
    (mn : String) (cbm : CheckBundleMetric) :
    (mn, cbm) ∈ scanNewMetrics states m ↔
      (states.lookup mn = none ∧
        ∃ mv, (mn, mv) ∈ m ∧
          cbm = { name := mn, status := "active", mtype := metricTypeFor mv.mtype }) := by
  simp only [scanNewMetrics, List.mem_filterMap]
  constructor
  · rintro ⟨⟨pn, pv⟩, hp, hf⟩
    by_cases hk : (states.lookup pn).isSome
    · simp [hk] at hf
    · simp only [hk, Bool.false_eq_true, if_false, Option.some.injEq, Prod.mk.injEq] at hf
      obtain ⟨hpn, hcbm⟩ := hf
      subst hpn
      refine ⟨Option.not_isSome_iff_eq_none.mp hk, pv, hp, hcbm.symm⟩
  · rintro ⟨hnone, mv, hmv, rfl⟩
    refine ⟨(mn, mv), hmv, ?_⟩
    simp [hnone]

theorem refreshPhase_error (c : Check) (env : EnableEnv) (e : String)
    (h : refreshPhase c env = Except.error e) :
    ∃ e0, env.fullMetrics = Except.error e0 ∧ e = "updating metric states: " ++ e0 := by
  unfold refreshPhase at h
  split at h
  · cases hf : env.fullMetrics with
    | error e0 =>
      rw [hf] at h
      injection h with h
      exact ⟨e0, rfl, h.symm⟩
    | ok ms =>
      rw [hf] at h
      cases h
  · cases h

/-- Every error returned by `enableNewMetrics` originates from the
`getFullCheckMetrics` API call; in particular a `saveState` failure never
surfaces. -/
theorem enableNewMetrics_error_source (c : Check) (m : List (String × Metric))
    (env : EnableEnv) :
    (enableNewMetrics c m env).error = none ∨
    ∃ e, env.fullMetrics = Except.error e ∧
      (enableNewMetrics c m env).error = some ("updating metric states: " ++ e) := by
  unfold enableNewMetrics
  split
  · exact Or.inl rfl
  · split
    · exact Or.inl rfl
    · rcases hres :
        refreshPhase
          (if env.now - c.lastRefresh > c.refreshTTL then
            { c with updateMetricStates := true }
          else c) env with e' | ⟨c2, calls, saved⟩
      · simp only [hres]
        obtain ⟨e0, hf, he⟩ := refreshPhase_error _ env e' hres
        exact Or.inr ⟨e0, hf, by rw [he]⟩
      · simp only [hres]
        left
        split
        · split
          · rfl
          · rfl
        · rfl

/-- C4: with management enabled, stored metric states loaded (non-empty), no
pending state update and an unexpired TTL, `EnableNewMetrics` submits exactly
the locally observed metrics whose names are absent from the stored metric
states, each with status "active" and type "histogram" for local kind "n",
"text" for "s", and "numeric" otherwise. -/
theorem enable_new_metrics_submits_exactly_unknown
    (c : Check) (m : List (String × Metric)) (env : EnableEnv)
    (hm : c.manage = true) (hu : c.updateMetricStates = false)
    (hs : c.metricStates ≠ [])
    (httl : env.now - c.lastRefresh ≤ c.refreshTTL) :
    (enableNewMetrics c m env).submitted = scanNewMetrics c.metricStates m ∧
    ∀ mn cbm, (mn, cbm) ∈ scanNewMetrics c.metricStates m ↔
      (c.metricStates.lookup mn = none ∧
        ∃ mv, (mn, mv) ∈ m ∧
          cbm = { name := mn, status := "active", mtype := metricTypeFor mv.mtype }) := by
  refine ⟨?_, fun mn cbm => mem_scanNewMetrics c.metricStates m mn cbm⟩
  have hnand : ¬ (c.updateMetricStates = false ∧ c.metricStates = []) :=
    fun h => hs h.2
  have hlt : ¬ (env.now - c.lastRefresh > c.refreshTTL) := not_lt.mpr httl
  unfold enableNewMetrics
  rw [if_neg (by simp [hm]), if_neg hnand, if_neg hlt]
  have hrp : refreshPhase c env = Except.ok (c, 0, false) := by
    unfold refreshPhase
    rw [if_neg (by simp [hu])]
  simp only [hrp]
  by_cases hlen : 0 < (scanNewMetrics c.metricStates m).length
  · by_cases hup : env.updateOk = true
    · simp only [if_pos hlen, if_pos hup]
    · simp only [if_pos hlen, if_neg hup]
  · have hnil : scanNewMetrics c.metricStates m = [] :=
      List.eq_nil_of_length_eq_zero (by omega)
    simp only [if_neg hlen]
    rw [hnil]

/-- Concrete fixtures for the check-manager witnesses. -/
def rcW : ReverseConfig :=
  { brokerAddr := "mtev_reverse://127.0.0.1:43191/check/foo-bar-baz", cn := "testbroker" }

def bundleW : Bundle := { cid := "/check_bundle/1234", revConfig := some rcW }

def checkW : Check :=
  { manage := true, metricStates := [("a", "active")], updateMetricStates := false,
    refreshTTL := 100, lastRefresh := 50, revConfig := some rcW, bundle := some bundleW }

def metricsW : List (String × Metric) :=
  [("a", { mtype := "n" }), ("b", { mtype := "n" }), ("c", { mtype := "s" }),
    ("d", { mtype := "L" })]

def enableEnvW : EnableEnv :=
  { now := 60, fullMetrics := Except.error "unused", updateOk := true, saveOk := true }

theorem enable_new_metrics_submits_exactly_unknown_witness :
    (enableNewMetrics checkW metricsW enableEnvW).submitted =
      scanNewMetrics checkW.metricStates metricsW ∧
    scanNewMetrics checkW.metricStates metricsW =
      [("b", { name := "b", status := "active", mtype := "histogram" }),
        ("c", { name := "c", status := "active", mtype := "text" }),
        ("d", { name := "d", status := "active", mtype := "numeric" })] :=
  ⟨(enable_new_metrics_submits_exactly_unknown checkW metricsW enableEnvW
      rfl rfl (by decide) (by decide)).1,
    by decide⟩

/-- C10: the first `EnableNewMetrics` call with management enabled, no pending
state update and empty stored metric states returns nil, makes no API call,
submits nothing, and only arms the metric-state load for the following call. -/
theorem enable_new_metrics_first_call_noop
    (c : Check) (m : List (String × Metric)) (env : EnableEnv)
    (hm : c.manage = true) (hu : c.updateMetricStates = false)
    (hs : c.metricStates = []) :
    enableNewMetrics c m env =
      { check := { c with updateMetricStates := true }, error := none,
        submitted := [], apiCalls := 0, stateSaved := false } := by
  unfold enableNewMetrics
  rw [if_neg (by simp [hm]), if_pos ⟨hu, hs⟩]

def checkFirstW : Check :=
  { manage := true, metricStates := [], updateMetricStates := false,
    refreshTTL := 100, lastRefresh := 0, revConfig := some rcW, bundle := some bundleW }

theorem enable_new_metrics_first_call_noop_witness :
    enableNewMetrics checkFirstW metricsW enableEnvW =
      { check := { checkFirstW with updateMetricStates := true }, error := none,
        submitted := [], apiCalls := 0, stateSaved := false } :=
  enable_new_metrics_first_call_noop checkFirstW metricsW enableEnvW rfl rfl rfl

/-- C5: metric-state file failures are never propagated. A `loadState` error
during `check.New` leaves the check running (no error) with empty metric
states and management still enabled; and every error `EnableNewMetrics`
returns originates from the `getFullCheckMetrics` API call, so a `saveState`
failure never causes `EnableNewMetrics` to return an error. -/
theorem state_file_errors_not_propagated
    (cfg : Config) (env : NewEnv) (e : String) (ttl : Nat) (b : Bundle)
    (h1 : needCheck cfg = true) (h2 : apiNew cfg.apiTokenKey = Except.ok ())
    (h3 : env.setCheckResult = Except.ok b) (h4 : cfg.enableNewMetricsFlag = true)
    (h5 : env.statePathOk = true) (h6 : env.loadResult = Except.error e)
    (h7 : env.ttlResult = Except.ok ttl) :
    (checkNew cfg env = Except.ok
        ({ manage := true, metricStates := [], updateMetricStates := false,
            refreshTTL := ttl, lastRefresh := 0, revConfig := b.revConfig,
            bundle := some b },
          { cfg with checkBundleID := b.cid })) ∧
    ∀ c2 m env2, (enableNewMetrics c2 m env2).error = none ∨
      ∃ e2, env2.fullMetrics = Except.error e2 ∧
        (enableNewMetrics c2 m env2).error = some ("updating metric states: " ++ e2) := by
  constructor
  · simp [checkNew, h1, h2, h3, h4, h5, h6, h7]
  · intro c2 m env2
    exact enableNewMetrics_error_source c2 m env2

def cfgW : Config :=
  { reverse := true, checkCreate := false, enableNewMetricsFlag := true,
    checkBundleID := "", apiTokenKey := "foo", apiTokenApp := "foo",
    apiURL := "http://127.0.0.1:8080", metricRefreshTTL := "5m" }

def envW : NewEnv :=
  { setCheckResult := Except.ok bundleW, statePathOk := true,
    loadResult := Except.error "open state file: no such file",
    ttlResult := Except.ok 300 }

theorem state_file_errors_not_propagated_witness :
    checkNew cfgW envW = Except.ok
      ({ manage := true, metricStates := [], updateMetricStates := false,
          refreshTTL := 300, lastRefresh := 0, revConfig := bundleW.revConfig,
          bundle := some bundleW },
        { cfgW with checkBundleID := bundleW.cid }) :=
  (state_file_errors_not_propagated cfgW envW "open state file: no such file" 300 bundleW
    (by decide) rfl rfl rfl rfl rfl rfl).1

/-- C9: whenever `check.New` succeeds with a check needed, the resolved
bundle's CID is written back into the global configuration key for the check
bundle id, overwriting any previously configured value, and the check holds
that bundle. -/
theorem check_new_sets_global_bundle_cid
    (cfg : Config) (env : NewEnv) (b : Bundle) (c : Check) (cfg2 : Config)
    (hn : needCheck cfg = true)
    (hb : env.setCheckResult = Except.ok b)
    (hok : checkNew cfg env = Except.ok (c, cfg2)) :
    cfg2.checkBundleID = b.cid ∧ c.bundle = some b := by
  by_cases hman : cfg.enableNewMetricsFlag = true
  all_goals by_cases hsp : env.statePathOk = false
  all_goals rcases ha : apiNew cfg.apiTokenKey with eA | u
  all_goals rcases hload : env.loadResult with eL | ms
  all_goals rcases httl : env.ttlResult with eT | ttl
  all_goals
    simp only [checkNew, hn, hb, hman, hsp, ha, hload, httl, Bool.true_eq_false,
      if_false, if_true, ite_true, ite_false, reduceCtorEq, reduceIte] at hok
  all_goals
    injection hok with hpair
  all_goals
    injection hpair with hc hcfg
  all_goals
    subst hc
  all_goals
    subst hcfg
  all_goals
    exact ⟨rfl, rfl⟩

def cfgNineW : Config :=
  { reverse := true, checkCreate := false, enableNewMetricsFlag := false,
    checkBundleID := "/check_bundle/9999", apiTokenKey := "foo", apiTokenApp := "foo",
    apiURL := "http://127.0.0.1:8080", metricRefreshTTL := "5m" }

def checkNineW : Check :=
  { manage := false, metricStates := [], updateMetricStates := false,
    refreshTTL := 0, lastRefresh := 0, revConfig := bundleW.revConfig,
    bundle := some bundleW }

theorem check_new_sets_global_bundle_cid_witness :
    ({ cfgNineW with checkBundleID := bundleW.cid } : Config).checkBundleID = bundleW.cid ∧
    checkNineW.bundle = some bundleW :=
  check_new_sets_global_bundle_cid cfgNineW envW bundleW checkNineW
    { cfgNineW with checkBundleID := bundleW.cid } (by decide) rfl (by rfl)

/-! ### Substring containment -/

/-- String `s` contains `t` as a contiguous substring. -/
def containsSubstring (s t : String) : Prop :=
  ∃ pre tail : String, s = pre ++ t ++ tail

theorem containsSubstring_iff (s t : String) :
    containsSubstring s t ↔ t.data <:+: s.data := by
  constructor
  · rintro ⟨pre, tail, rfl⟩
    exact ⟨pre.data, tail.data, by simp [String.data_append]⟩
  · rintro ⟨u, v, huv⟩
    refine ⟨{ data := u }, { data := v }, String.ext ?_⟩
    simp only [String.data_append]
    exact huv.symm

/-! ### The NOP sentinel (C3) -/

/-- The NOP check object `check.New` returns when no check is needed. -/
def nopCheck : Check :=
  { manage := false, metricStates := [], updateMetricStates := false,
    refreshTTL := 0, lastRefresh := 0, revConfig := none, bundle := none }

/-- A configuration with no reverse, managed-metrics or create flag set. -/
def cfgNop : Config :=
  { reverse := false, checkCreate := false, enableNewMetricsFlag := false,
    checkBundleID := "", apiTokenKey := "", apiTokenApp := "", apiURL := "",
    metricRefreshTTL := "" }

def envNop : NewEnv :=
  { setCheckResult := Except.error "unused", statePathOk := true,
    loadResult := Except.ok [], ttlResult := Except.ok 0 }

def enableEnvNop : EnableEnv :=
  { now := 0, fullMetrics := Except.error "unused", updateOk := false, saveOk := false }

/-- C3 counterexample: on the NOP sentinel produced when no flag requires a
check, `GetReverseConfig` reports "invalid reverse configuration" — a message
that does not contain "management disabled" — and `EnableNewMetrics` returns
nil with no message at all, refuting the claim that every subsequent
operation reports "management disabled". -/
theorem nop_management_disabled_counterexample :
    checkNew cfgNop envNop = Except.ok (nopCheck, cfgNop) ∧
    getReverseConfig nopCheck = Except.error "invalid reverse configuration" ∧
    ¬ containsSubstring "invalid reverse configuration" "management disabled" ∧
    (enableNewMetrics nopCheck [] enableEnvNop).error = none := by
  refine ⟨rfl, rfl, ?_, rfl⟩
  rw [containsSubstring_iff]
  decide

/-- C3 (amended): when no reverse, managed-metrics or create flag requires a
check, `check.New` returns the NOP sentinel with management disabled,
independently of the API environment (so no API traffic occurs); on that
sentinel `EnableNewMetrics` is a silent no-op (nil error, nothing submitted,
zero API calls) and `GetReverseConfig` returns the error
"invalid reverse configuration". -/
theorem nop_sentinel_behavior (cfg : Config) (env env2 : NewEnv)
    (h : needCheck cfg = false) :
    checkNew cfg env = Except.ok (nopCheck, cfg) ∧
    checkNew cfg env2 = checkNew cfg env ∧
    getReverseConfig nopCheck = Except.error "invalid reverse configuration" ∧
    ∀ m env3, enableNewMetrics nopCheck m env3 =
      { check := nopCheck, error := none, submitted := [], apiCalls := 0,
        stateSaved := false } := by
  have h1 : checkNew cfg env = Except.ok (nopCheck, cfg) := by
    unfold checkNew
    rw [if_pos h]
    rfl
  have h2 : checkNew cfg env2 = Except.ok (nopCheck, cfg) := by
    unfold checkNew
    rw [if_pos h]
    rfl
  exact ⟨h1, h2.trans h1.symm, rfl, fun m env3 => rfl⟩

theorem nop_sentinel_behavior_witness :
    checkNew cfgNop envNop = Except.ok (nopCheck, cfgNop) ∧
    getReverseConfig nopCheck = Except.error "invalid reverse configuration" :=
  ⟨(nop_sentinel_behavior cfgNop envNop envNop rfl).1,
    (nop_sentinel_behavior cfgNop envNop envNop rfl).2.2.1⟩

/-! ### Reverse tunnel surface (C6, C7, C8) -/

/-- The reverse tunnel instance: whether reverse is enabled, the current
connection handle (none when no connection is held) and whether shutdown has
been requested. -/
structure Reverse where
  enabled : Bool
  conn : Option Nat
  shutdownRequested : Bool
deriving DecidableEq, Repr

/-- Modelled from the spec: `reverse.New` (the reverse package's main source
is not under src, only its tests). It constructs an idle instance, disabled
when configuration says so; when enabled it configures the check via
`check.New` and wraps a failure with "reverse configuration (check)". -/
def reverseNew (cfg : Config) (env : NewEnv) : Except String Reverse :=
  if cfg.reverse = false then
    Except.ok { enabled := false, conn := none, shutdownRequested := false }
  else
    match checkNew cfg env with
    | Except.error e => Except.error ("reverse configuration (check): " ++ e)
    | Except.ok _ => Except.ok { enabled := true, conn := none, shutdownRequested := false }

/-- Modelled from the spec: `Start` returns immediately with success when
reverse is disabled; otherwise it needs a reverse configuration (fatal error
when unavailable) and enters the connect loop, performing one dial per
supplied outcome. The second component counts the dials performed. -/
def reverseStart (r : Reverse) (rc : Option ReverseConfig) (outcomes : List Bool) :
    Except String Unit × Nat :=
  if r.enabled = false then (Except.ok (), 0)
  else
    match rc with
    | none => (Except.error "reverse configuration unavailable", 0)
    | some _ =>
      ((if outcomes.contains true then Except.ok ()
        else Except.error "establishing reverse connection"), outcomes.length)

/-- Modelled from the spec: `Stop` requests orderly shutdown, closing the
connection when one is held; it is total on a nil connection handle (that is
the no-panic requirement of the tests). -/
def reverseStop (r : Reverse) : Reverse :=
  { r with shutdownRequested := true, conn := none }

/-- An externally visible operation on the tunnel, for interleaving
histories. -/
inductive Op where
  | start : Op
  | stop : Op
deriving DecidableEq, Repr

/-- Modelled from the spec: the state effect of one operation. `Start` on an
enabled tunnel acquires a connection and clears the shutdown request; on a
disabled tunnel it returns immediately leaving the state unchanged; `Stop`
is `reverseStop`. -/
def applyOp (r : Reverse) : Op → Reverse
  | Op.start => if r.enabled then { r with conn := some 1, shutdownRequested := false } else r
  | Op.stop => reverseStop r

theorem reverseStop_idem (r : Reverse) : reverseStop (reverseStop r) = reverseStop r := rfl

theorem reverseStop_iterate (n : Nat) (r : Reverse) (h : 1 ≤ n) :
    reverseStop^[n] r = reverseStop r := by
  induction n generalizing r with
  | zero => omega
  | succ k ih =>
    rw [Function.iterate_succ_apply]
    rcases Nat.eq_zero_or_pos k with hk | hk
    · subst hk
      rfl
    · rw [ih (reverseStop r) hk, reverseStop_idem]

/-- C7: after any interleaving of `Start`/`Stop` operations from any starting
state, calling `Stop` any number N ≥ 1 of times is the same as calling it
once (idempotence), never fails (it is a total function, also on a nil
connection handle), and leaves the tunnel releasable: no connection held and
shutdown requested. -/
theorem stop_idempotent_releasable (r : Reverse) (ops : List Op) (n : Nat)
    (h : 1 ≤ n) :
    reverseStop^[n] (ops.foldl applyOp r) = reverseStop (ops.foldl applyOp r) ∧
    (reverseStop (ops.foldl applyOp r)).conn = none ∧
    (reverseStop (ops.foldl applyOp r)).shutdownRequested = true := by
  exact ⟨reverseStop_iterate n (ops.foldl applyOp r) h, rfl, rfl⟩

theorem stop_idempotent_releasable_witness :
    reverseStop^[3]
        ([Op.start, Op.stop, Op.start].foldl applyOp
          { enabled := true, conn := none, shutdownRequested := false }) =
      reverseStop
        ([Op.start, Op.stop, Op.start].foldl applyOp
          { enabled := true, conn := none, shutdownRequested := false }) ∧
    (reverseStop
        ([Op.start, Op.stop, Op.start].foldl applyOp
          { enabled := true, conn := none, shutdownRequested := false })).conn = none :=
  ⟨(stop_idempotent_releasable { enabled := true, conn := none, shutdownRequested := false }
      [Op.start, Op.stop, Op.start] 3 (by decide)).1,
    (stop_idempotent_releasable { enabled := true, conn := none, shutdownRequested := false }
      [Op.start, Op.stop, Op.start] 3 (by decide)).2.1⟩

/-- C6: with reverse disabled in configuration, `reverse.New` succeeds (for
every API environment) and `Start` on the returned instance returns
immediately with success, performing no dial, whatever reverse configuration
or dial outcomes would have been available. -/
theorem reverse_disabled_start_immediate (cfg : Config) (env : NewEnv)
    (h : cfg.reverse = false) :
    reverseNew cfg env =
      Except.ok { enabled := false, conn := none, shutdownRequested := false } ∧
    ∀ rc outcomes,
      reverseStart { enabled := false, conn := none, shutdownRequested := false }
        rc outcomes = (Except.ok (), 0) := by
  constructor
  · unfold reverseNew
    rw [if_pos h]
  · intro rc outcomes
    rfl

theorem reverse_disabled_start_immediate_witness :
    reverseNew cfgNop envNop =
      Except.ok { enabled := false, conn := none, shutdownRequested := false } ∧
    reverseStart { enabled := false, conn := none, shutdownRequested := false }
      none [] = (Except.ok (), 0) :=
  ⟨(reverse_disabled_start_immediate cfgNop envNop rfl).1,
    (reverse_disabled_start_immediate cfgNop envNop rfl).2 none []⟩

/-- C8: with reverse enabled and no API token configured, `reverse.New`
returns an error whose message contains "API Token is required". -/
theorem reverse_new_no_token_error (cfg : Config) (env : NewEnv)
    (h1 : cfg.reverse = true) (h2 : cfg.apiTokenKey = "") :
    ∃ msg, reverseNew cfg env = Except.error msg ∧
      containsSubstring msg "API Token is required" := by
  have hneed : needCheck cfg = true := by
    simp [needCheck, h1]
  have hcheck : checkNew cfg env = Except.error
      ("creating circonus api client: Initializing cgm API: API Token is required") := by
    unfold checkNew
    rw [if_neg (by simp [hneed])]
    have : apiNew cfg.apiTokenKey =
        Except.error "Initializing cgm API: API Token is required" := by
      unfold apiNew
      rw [if_pos h2]
    rw [this]
    rfl
  refine ⟨"reverse configuration (check): creating circonus api client: " ++
      "Initializing cgm API: API Token is required", ?_, ?_⟩
  · unfold reverseNew
    rw [if_neg (by simp [h1]), hcheck]
    rfl
  · exact ⟨"reverse configuration (check): creating circonus api client: Initializing cgm API: ",
      "", by decide⟩

def cfgNoToken : Config :=
  { reverse := true, checkCreate := false, enableNewMetricsFlag := false,
    checkBundleID := "", apiTokenKey := "", apiTokenApp := "", apiURL := "",
    metricRefreshTTL := "" }

theorem reverse_new_no_token_error_witness :
    ∃ msg, reverseNew cfgNoToken envNop = Except.error msg ∧
      containsSubstring msg "API Token is required" :=
  reverse_new_no_token_error cfgNoToken envNop rfl rfl
